import Mathlib

/-
Verification development for the evaluator-dashboard review-queue core
(src/src/pages/EvaluatorDashboard.tsx).

The TypeScript component is shallowly embedded: each query function,
the statistics aggregator, the review mutation and the permission check
become pure Lean functions.  Remote calls are modelled by passing the
would-be response as an `Except` argument and recording, in the result,
the list of requests the code would have issued; thrown-and-caught
JavaScript exceptions become explicit error branches.  JavaScript
truthiness of strings (only the empty string is falsy) and of numeric
ids (only 0 is falsy) is translated explicitly at each use site.
-/

namespace EvaluatorDashboard

/-- One review record of a plan, as delivered by the remote store
(field `evaluator` is the OrganizationUser id of the reviewer). -/
structure Review where
  evaluator : Nat
  status : String
  feedback : String
  reviewed_at : Option String
deriving Repr, DecidableEq

/-- One plan record as delivered by the remote store.  `reviews = none`
models an absent or non-array `reviews` field (the code guards with
`plan.reviews && Array.isArray(plan.reviews)`). -/
structure Plan where
  id : Nat
  organization : Nat
  planner_name : String
  status : String
  submitted_at : Option String
  from_date : Option String
  to_date : Option String
  organization_name : Option String
  reviews : Option (List Review)
deriving Repr, DecidableEq

/-- Shape of a submission-store response body, classified by the value
that `response.data?.results || response.data || []` extracts.
`envelope` models `{ results: [...] }` with an array field, `bare` a
bare array, `nullish` a falsy body (null / undefined), `strBody` a
body whose extracted value is a string (a bare string body, or
`{ results: "..." }` with a truthy string field), and `other` any
remaining truthy shape, whose extracted value is neither an array nor
a string and hence not iterable. -/
inductive RespData where
  | envelope (results : List Plan)
  | bare (plansArr : List Plan)
  | nullish
  | strBody (s : String)
  | other
deriving Repr, DecidableEq

/-- Extraction of the plan list in the pending builder (line 105),
following `response.data?.results || response.data || []`; the
extracted value then flows into `plans.filter`, which throws a
TypeError on every non-array value, strings included, so `none` marks
exactly the shapes the pending builder's catch handles. -/
def extractPlans : RespData → Option (List Plan)
  | RespData.envelope results => some results
  | RespData.bare plansArr => some plansArr
  | RespData.nullish => some []
  | RespData.strBody _ => none
  | RespData.other => none

/-- Extraction of the plan list in the decided builder (lines 167 to
170), where the extracted value is spread into an array literal.  A
string is iterable, so the spread succeeds and yields its characters;
a character carries no `reviews` array, so the guard at line 176 skips
every one of them and the string body contributes no entries to the
working list — modelled as extracting the empty plan list.  Spreading
a non-iterable value throws a TypeError, so `none` marks exactly the
shapes the decided builder's catch handles. -/
def spreadPlans : RespData → Option (List Plan)
  | RespData.envelope results => some results
  | RespData.bare plansArr => some plansArr
  | RespData.nullish => some []
  | RespData.strBody _ => some []
  | RespData.other => none

/-- A GET request issued to the submission store. -/
structure FetchRequest where
  path : String
  status : String
  organization : String
  limit : Nat
deriving Repr, DecidableEq

/-- Comma-joined organization id list, following `userOrgIds.join(',')`. -/
def joinComma : List Nat → String
  | [] => ""
  | [x] => toString x
  | x :: y :: xs => toString x ++ "," ++ joinComma (y :: xs)

/-- The scoped, capped plans request with the given status filter. -/
def plansRequest (status : String) (userOrgIds : List Nat) : FetchRequest :=
  { path := "/plans/", status := status,
    organization := joinComma userOrgIds, limit := 50 }

/-- A pending-set entry: the fetched plan plus the one added
annotation `organizationName` (from `{ ...plan, organizationName }`). -/
structure PendingPlan where
  plan : Plan
  organizationName : String
deriving Repr, DecidableEq

/-- A decided-set entry: the fetched plan plus the two added
annotations `organizationName` and `currentEvaluatorReview`. -/
structure ReviewedPlan where
  plan : Plan
  organizationName : String
  currentEvaluatorReview : Review
deriving Repr, DecidableEq

/-- Result of one query function: the produced data, the remote
requests that were issued, and the console errors that were logged.
The function is total: no error escapes to the caller. -/
structure BuildResult (α : Type) where
  data : List α
  requests : List FetchRequest
  errorsLogged : List String
deriving Repr, DecidableEq

/-- Organization-name resolution used by the annotation step,
following `organizationsMap[String(plan.organization)] ||
`Organization ${plan.organization}``; an empty mapped name is falsy
in JavaScript and also falls back. -/
def orgNameOr (orgMap : List (Nat × String)) (orgId : Nat) : String :=
  match orgMap.lookup orgId with
  | some name => if name == "" then "Organization " ++ toString orgId else name
  | none => "Organization " ++ toString orgId

/-- The client-side pending filter (lines 108 to 119): keep a plan iff
its status is exactly SUBMITTED and, when a reviews array is present,
no review in it was written by one of the caller evaluator ids. -/
def keepPending (currentEvaluatorIds : List Nat) (plan : Plan) : Bool :=
  if plan.status != "SUBMITTED" then false
  else
    match plan.reviews with
    | some reviews => !(reviews.any (fun review => currentEvaluatorIds.contains review.evaluator))
    | none => true

/-- The pending-plans query function (lines 93 to 133): guard on empty
id sets, fetch SUBMITTED plans, client-side filter, annotate with the
resolved organization name; any remote failure or TypeError is caught,
logged, and degraded to an empty data list. -/
def pendingPlansQueryFn (userOrgIds currentEvaluatorIds : List Nat)
    (organizationsMap : List (Nat × String))
    (fetched : Except String RespData) : BuildResult PendingPlan :=
  if userOrgIds.length == 0 || currentEvaluatorIds.length == 0 then
    { data := [], requests := [], errorsLogged := [] }
  else
    match fetched with
    | Except.error e =>
        { data := [], requests := [plansRequest "SUBMITTED" userOrgIds],
          errorsLogged := ["Error fetching pending reviews: " ++ e] }
    | Except.ok respData =>
        match extractPlans respData with
        | none =>
            { data := [], requests := [plansRequest "SUBMITTED" userOrgIds],
              errorsLogged := ["Error fetching pending reviews: TypeError"] }
        | some plansArr =>
            let filteredPlans := plansArr.filter (keepPending currentEvaluatorIds)
            let plansWithNames := filteredPlans.map (fun plan =>
              { plan := plan,
                organizationName := orgNameOr organizationsMap plan.organization })
            { data := plansWithNames,
              requests := [plansRequest "SUBMITTED" userOrgIds],
              errorsLogged := [] }

/-- First review in a reviews array written by one of the caller
evaluator ids, following `plan.reviews.find(review =>
currentEvaluatorIds.includes(review.evaluator))`. -/
def firstMatchingReview (currentEvaluatorIds : List Nat) (reviews : List Review) : Option Review :=
  reviews.find? (fun review => currentEvaluatorIds.contains review.evaluator)

/-- Whether a plan has at least one review by one of the caller
evaluator ids (its reviews array being present). -/
def hasMatch (currentEvaluatorIds : List Nat) (plan : Plan) : Bool :=
  match plan.reviews with
  | some reviews => reviews.any (fun review => currentEvaluatorIds.contains review.evaluator)
  | none => false

/-- One step of the decided-set dedup loop (lines 175 to 190): if the
plan has a reviews array containing a review by the caller and its id
was not added before, append it annotated with the organization name
and that first matching review; otherwise leave the accumulator. -/
def dedupStep (currentEvaluatorIds : List Nat) (organizationsMap : List (Nat × String))
    (acc : List ReviewedPlan) (plan : Plan) : List ReviewedPlan :=
  match plan.reviews with
  | none => acc
  | some reviews =>
      match firstMatchingReview currentEvaluatorIds reviews with
      | none => acc
      | some review =>
          if acc.any (fun rp => rp.plan.id == plan.id) then acc
          else acc ++ [{ plan := plan,
                         organizationName := orgNameOr organizationsMap plan.organization,
                         currentEvaluatorReview := review }]

/-- The decided-set filter-and-dedup traversal over the concatenated
approved-then-rejected working list (a JavaScript Map keyed by plan id,
projected back in insertion order). -/
def dedupReviewed (currentEvaluatorIds : List Nat) (organizationsMap : List (Nat × String))
    (allPlans : List Plan) : List ReviewedPlan :=
  allPlans.foldl (dedupStep currentEvaluatorIds organizationsMap) []

/-- The reviewed-plans query function (lines 145 to 196): guard on
empty id sets, issue the APPROVED and REJECTED fetches, concatenate,
filter and deduplicate; failure of either fetch, or a TypeError while
spreading a malformed body, is caught, logged, and degraded to an
empty data list. -/
def reviewedPlansQueryFn (userOrgIds currentEvaluatorIds : List Nat)
    (organizationsMap : List (Nat × String))
    (approvedFetched rejectedFetched : Except String RespData) : BuildResult ReviewedPlan :=
  if userOrgIds.length == 0 || currentEvaluatorIds.length == 0 then
    { data := [], requests := [], errorsLogged := [] }
  else
    let reqs := [plansRequest "APPROVED" userOrgIds, plansRequest "REJECTED" userOrgIds]
    match approvedFetched, rejectedFetched with
    | Except.ok approvedResp, Except.ok rejectedResp =>
        match spreadPlans approvedResp, spreadPlans rejectedResp with
        | some approvedPlans, some rejectedPlans =>
            { data := dedupReviewed currentEvaluatorIds organizationsMap
                        (approvedPlans ++ rejectedPlans),
              requests := reqs, errorsLogged := [] }
        | _, _ =>
            { data := [], requests := reqs,
              errorsLogged := ["Error fetching reviewed plans: TypeError"] }
    | _, _ =>
        { data := [], requests := reqs,
          errorsLogged := ["Error fetching reviewed plans: fetch failed"] }

/-- The four aggregate counts derived by the statistics memo. -/
structure Stats where
  pendingCount : Nat
  reviewedCount : Nat
  approvedCount : Nat
  rejectedCount : Nat
deriving Repr, DecidableEq

/-- Distinct-id accumulation modelling `Set.add` on a JavaScript Set
of plan ids. -/
def insertIfNew (s : List Nat) (x : Nat) : List Nat :=
  if s.contains x then s else s ++ [x]

/-- State of the three id sets accumulated over the reviewed list. -/
structure IdSets where
  rev : List Nat
  app : List Nat
  rej : List Nat
deriving Repr, DecidableEq

/-- One step of the reviewed-plans counting loop (lines 222 to 232):
a plan with status APPROVED or REJECTED is added to the reviewed id
set and to the id set of its own status. -/
def statsStep (s : IdSets) (p : ReviewedPlan) : IdSets :=
  if p.plan.status == "APPROVED" || p.plan.status == "REJECTED" then
    let s1 : IdSets := { s with rev := insertIfNew s.rev p.plan.id }
    if p.plan.status == "APPROVED" then
      { s1 with app := insertIfNew s1.app p.plan.id }
    else if p.plan.status == "REJECTED" then
      { s1 with rej := insertIfNew s1.rej p.plan.id }
    else s1
  else s

/-- The memoized statistics (lines 207 to 240): distinct-id counts over
the two query results, the pending count restricted to SUBMITTED
entries and the reviewed count split by APPROVED / REJECTED status. -/
def statistics (pendingData : List PendingPlan) (reviewedData : List ReviewedPlan) : Stats :=
  let uniquePending := pendingData.foldl
    (fun s p => if p.plan.status == "SUBMITTED" then insertIfNew s p.plan.id else s)
    ([] : List Nat)
  let sets := reviewedData.foldl statsStep { rev := [], app := [], rej := [] }
  { pendingCount := uniquePending.length,
    reviewedCount := sets.rev.length,
    approvedCount := sets.app.length,
    rejectedCount := sets.rej.length }

/-- Body of a review POST, `{ status, feedback }`. -/
structure ReviewPayload where
  status : String
  feedback : String
deriving Repr, DecidableEq

/-- A POST request issued by the review mutation. -/
structure PostRequest where
  url : String
  payload : ReviewPayload
deriving Repr, DecidableEq

/-- JavaScript `feedback || ''` with `none` for an absent value; the
empty string is falsy and also maps to the default. -/
def jsOrEmpty : Option String → String
  | none => ""
  | some s => if s == "" then "" else s

/-- The review mutation function (lines 244 to 259): build the payload
with defaulted feedback, take a timestamp, and POST once to the
approve endpoint when the status is APPROVED, otherwise once to the
reject endpoint, the timestamp appended as a cache-busting query
parameter.  The returned list holds every request issued. -/
def reviewMutationFn (planId : String) (status : String) (feedback : Option String)
    (timestamp : Nat) : List PostRequest :=
  let reviewPayload : ReviewPayload := { status := status, feedback := jsOrEmpty feedback }
  if status == "APPROVED" then
    [{ url := "/plans/" ++ planId ++ "/approve/?_=" ++ toString timestamp,
       payload := reviewPayload }]
  else
    [{ url := "/plans/" ++ planId ++ "/reject/?_=" ++ toString timestamp,
       payload := reviewPayload }]

/-- The dashboard view state touched by the mutation callbacks.
`invalidated` records the query-key prefixes marked stale on the query
client; `timers` records scheduled self-clearing notices as pairs of a
delay in milliseconds and the notice they clear. -/
structure DashState where
  showReviewModal : Bool
  selectedPlan : Option Plan
  success : Option String
  error : Option String
  invalidated : List String
  timers : List (Nat × String)
deriving Repr, DecidableEq

/-- The mutation onSuccess callback (lines 265 to 272): invalidate both
query caches, close the modal, clear the selection, set the success
notice and schedule its clearing after 3000 ms. -/
def onReviewSuccess (s : DashState) : DashState :=
  { s with
    invalidated := s.invalidated ++ ["evaluator-pending-plans", "evaluator-reviewed-plans"],
    showReviewModal := false,
    selectedPlan := none,
    success := some "Plan review submitted successfully",
    timers := s.timers ++ [(3000, "success")] }

/-- One role-record of the caller, binding one organization to one
role; `id` is the OrganizationUser (role-record) identifier. -/
structure UserOrg where
  id : Nat
  organization : Nat
  role : String
deriving Repr, DecidableEq

/-- The identity payload returned by `auth.getCurrentUser()`. -/
structure AuthData where
  isAuthenticated : Bool
  userOrganizations : List UserOrg
deriving Repr, DecidableEq

/-- Modelled from the spec: the `isEvaluator` permission gate is
imported from `../types/user`, which is not part of this repository
snapshot; per the spec, a caller holding no reviewer role-record in
any organization is denied, so the gate holds iff some role-record
carries the Evaluator role. -/
def isEvaluator (userOrganizations : List UserOrg) : Bool :=
  userOrganizations.any (fun org => org.role == "EVALUATOR")

/-- The reviewer-only flag computation (lines 54 to 59): the role list
contains EVALUATOR and contains neither ADMIN nor PLANNER. -/
def isOnlyEvaluator (userOrganizations : List UserOrg) : Bool :=
  let roles := userOrganizations.map (fun org => org.role)
  roles.contains "EVALUATOR" && !roles.contains "ADMIN" && !roles.contains "PLANNER"

/-- A catalog entry returned by the bulk organization fetch. -/
structure OrgEntry where
  id : Nat
  name : String
deriving Repr, DecidableEq

/-- The organization map built from the bulk fetch (lines 64 to 71):
entries with a falsy id (0) are skipped; a later entry with the same
id overwrites an earlier one, modelled by prepending so that lookup
finds the latest assignment first. -/
def buildOrgMap (orgs : List OrgEntry) : List (Nat × String) :=
  orgs.foldl (fun m org => if org.id != 0 then (org.id, org.name) :: m else m) []

/-- Outcome of the checkPermissions effect: the component state it
leaves behind.  `warnings` and `logs` record console.warn and
console.error output. -/
structure CheckResult where
  navigatedToLogin : Bool
  error : Option String
  userOrgIds : List Nat
  currentEvaluatorIds : List Nat
  isEvaluatorOnly : Bool
  organizationsMap : List (Nat × String)
  isAuthChecked : Bool
  isInitialLoad : Bool
  warnings : List String
  logs : List String
deriving Repr, DecidableEq

/-- The mount-time permission check (lines 28 to 88).  The identity
fetch and the bulk organization fetch are passed as `Except` values;
`Except.ok none` on the organization fetch models a response whose
`data` field is absent or not an array.  The inner try/catch swallows
an organization-fetch failure with a console.warn; the outer catch
turns an identity-fetch failure into the verification error; the
finally clause always ends the initial-load state. -/
def checkPermissions (authFetched : Except String AuthData)
    (orgsFetched : Except String (Option (List OrgEntry))) : CheckResult :=
  match authFetched with
  | Except.error e =>
      { navigatedToLogin := false, error := some "Failed to verify your permissions",
        userOrgIds := [], currentEvaluatorIds := [], isEvaluatorOnly := false,
        organizationsMap := [], isAuthChecked := false, isInitialLoad := false,
        warnings := [], logs := ["Failed to check permissions: " ++ e] }
  | Except.ok authData =>
      if !authData.isAuthenticated then
        { navigatedToLogin := true, error := none,
          userOrgIds := [], currentEvaluatorIds := [], isEvaluatorOnly := false,
          organizationsMap := [], isAuthChecked := false, isInitialLoad := false,
          warnings := [], logs := [] }
      else if !(isEvaluator authData.userOrganizations) then
        { navigatedToLogin := false,
          error := some "You do not have permission to access the evaluator dashboard",
          userOrgIds := [], currentEvaluatorIds := [], isEvaluatorOnly := false,
          organizationsMap := [], isAuthChecked := false, isInitialLoad := false,
          warnings := [], logs := [] }
      else if authData.userOrganizations.length > 0 then
        let orgIds := authData.userOrganizations.map (fun org => org.organization)
        let evaluatorIds := (authData.userOrganizations.filter
          (fun org => org.role == "EVALUATOR")).map (fun org => org.id)
        let evalOnly := isOnlyEvaluator authData.userOrganizations
        match orgsFetched with
        | Except.error e =>
            { navigatedToLogin := false, error := none,
              userOrgIds := orgIds, currentEvaluatorIds := evaluatorIds,
              isEvaluatorOnly := evalOnly, organizationsMap := [],
              isAuthChecked := true, isInitialLoad := false,
              warnings := ["Failed to pre-fetch organizations: " ++ e], logs := [] }
        | Except.ok none =>
            { navigatedToLogin := false, error := none,
              userOrgIds := orgIds, currentEvaluatorIds := evaluatorIds,
              isEvaluatorOnly := evalOnly, organizationsMap := [],
              isAuthChecked := true, isInitialLoad := false,
              warnings := [], logs := [] }
        | Except.ok (some orgs) =>
            { navigatedToLogin := false, error := none,
              userOrgIds := orgIds, currentEvaluatorIds := evaluatorIds,
              isEvaluatorOnly := evalOnly, organizationsMap := buildOrgMap orgs,
              isAuthChecked := true, isInitialLoad := false,
              warnings := [], logs := [] }
      else
        { navigatedToLogin := false, error := none,
          userOrgIds := [], currentEvaluatorIds := [], isEvaluatorOnly := false,
          organizationsMap := [], isAuthChecked := true, isInitialLoad := false,
          warnings := [], logs := [] }

/-- The render-time organization-name getter (lines 340 to 357):
prefer a truthy `organizationName` annotation other than the literal
"Unknown Organization", then a truthy raw `organization_name` field,
then the cache, then the synthesized placeholder. -/
def getOrganizationName (organizationsMap : List (Nat × String))
    (organizationName : Option String) (plan : Plan) : String :=
  let fromMap :=
    match organizationsMap.lookup plan.organization with
    | some name => if name == "" then "Organization " ++ toString plan.organization else name
    | none => "Organization " ++ toString plan.organization
  let fromField :=
    match plan.organization_name with
    | some name => if name == "" then fromMap else name
    | none => fromMap
  match organizationName with
  | some name =>
      if name != "" && name != "Unknown Organization" then name else fromField
  | none => fromField

lemma keepPending_eq_true_iff (currentEvaluatorIds : List Nat) (plan : Plan) :
    keepPending currentEvaluatorIds plan = true ↔
      (plan.status = "SUBMITTED" ∧
        ∀ review ∈ plan.reviews.getD [], review.evaluator ∉ currentEvaluatorIds) := by
  unfold keepPending
  cases hr : plan.reviews with
  | none => simp
  | some reviews =>
      by_cases hs : plan.status = "SUBMITTED" <;> simp [hs]

lemma pendingPlansQueryFn_ok_data (userOrgIds currentEvaluatorIds : List Nat)
    (organizationsMap : List (Nat × String)) (plansArr : List Plan)
    (ho : userOrgIds ≠ []) (he : currentEvaluatorIds ≠ []) :
    (pendingPlansQueryFn userOrgIds currentEvaluatorIds organizationsMap
        (Except.ok (RespData.bare plansArr))).data =
      (plansArr.filter (keepPending currentEvaluatorIds)).map (fun plan =>
        { plan := plan,
          organizationName := orgNameOr organizationsMap plan.organization }) := by
  simp [pendingPlansQueryFn, extractPlans, ho, he]

/-- Claim C1: a submission returned by the pending-set fetch appears in
the pending-set builder output iff its status is exactly SUBMITTED and
none of its decision records carries a reviewer id in the caller
reviewer-id set; a submission with an absent or empty decision-record
collection passes the filter. -/
theorem pending_set_membership (userOrgIds currentEvaluatorIds : List Nat)
    (organizationsMap : List (Nat × String)) (plansArr : List Plan)
    (ho : userOrgIds ≠ []) (he : currentEvaluatorIds ≠ []) (plan : Plan) :
    (∃ ap ∈ (pendingPlansQueryFn userOrgIds currentEvaluatorIds organizationsMap
        (Except.ok (RespData.bare plansArr))).data, ap.plan = plan) ↔
      (plan ∈ plansArr ∧ plan.status = "SUBMITTED" ∧
        ∀ review ∈ plan.reviews.getD [], review.evaluator ∉ currentEvaluatorIds) := by
  rw [pendingPlansQueryFn_ok_data userOrgIds currentEvaluatorIds organizationsMap plansArr ho he]
  constructor
  · rintro ⟨ap, hap, rfl⟩
    rcases List.mem_map.mp hap with ⟨p, hp, hpe⟩
    rcases List.mem_filter.mp hp with ⟨hmem, hkeep⟩
    have hplan : ap.plan = p := by rw [← hpe]
    rw [hplan]
    exact ⟨hmem, (keepPending_eq_true_iff currentEvaluatorIds p).mp hkeep⟩
  · rintro ⟨hmem, hsub, hrev⟩
    refine ⟨{ plan := plan, organizationName := orgNameOr organizationsMap plan.organization },
      List.mem_map.mpr ⟨plan, List.mem_filter.mpr ⟨hmem, ?_⟩, rfl⟩, rfl⟩
    exact (keepPending_eq_true_iff currentEvaluatorIds plan).mpr ⟨hsub, hrev⟩

/-- A SUBMITTED plan reviewed only by evaluator 9 (spec scenario for a
caller whose reviewer-id set is just 7). -/
def planSub9 : Plan :=
  { id := 1, organization := 1, planner_name := "p", status := "SUBMITTED",
    submitted_at := none, from_date := none, to_date := none,
    organization_name := none,
    reviews := some [{ evaluator := 9, status := "APPROVED", feedback := "",
                       reviewed_at := none }] }

/-- Witness for claim C1 at the spec scenario input: reviewer-id set
just 7, one SUBMITTED plan reviewed only by evaluator 9, which is kept
in the pending set. -/
theorem pending_set_membership_witness :
    ([1] : List Nat) ≠ [] ∧ ([7] : List Nat) ≠ [] ∧
    (∃ ap ∈ (pendingPlansQueryFn [1] [7] []
        (Except.ok (RespData.bare [planSub9]))).data, ap.plan = planSub9) :=
  ⟨by decide, by decide,
    (pending_set_membership [1] [7] [] [planSub9] (by decide) (by decide) planSub9).mpr
      (by decide)⟩

/-- Claim C3: with an empty organization-id set or an empty
reviewer-id set, both builders return an empty result and issue no
remote request. -/
theorem empty_ids_guard (userOrgIds currentEvaluatorIds : List Nat)
    (organizationsMap : List (Nat × String))
    (h : userOrgIds = [] ∨ currentEvaluatorIds = [])
    (fetched approvedFetched rejectedFetched : Except String RespData) :
    pendingPlansQueryFn userOrgIds currentEvaluatorIds organizationsMap fetched =
      { data := [], requests := [], errorsLogged := [] } ∧
    reviewedPlansQueryFn userOrgIds currentEvaluatorIds organizationsMap
        approvedFetched rejectedFetched =
      { data := [], requests := [], errorsLogged := [] } := by
  rcases h with h | h <;> simp [pendingPlansQueryFn, reviewedPlansQueryFn, h]

/-- Witness for claim C3 at an empty organization-id set. -/
theorem empty_ids_guard_witness :
    (([] : List Nat) = [] ∨ ([7] : List Nat) = []) ∧
    (pendingPlansQueryFn [] [7] [] (Except.error "down") =
        { data := [], requests := [], errorsLogged := [] } ∧
      reviewedPlansQueryFn [] [7] [] (Except.error "down") (Except.error "down") =
        { data := [], requests := [], errorsLogged := [] }) :=
  ⟨Or.inl rfl,
    empty_ids_guard [] [7] [] (Or.inl rfl)
      (Except.error "down") (Except.error "down") (Except.error "down")⟩

/-- Claim C6: when a remote fetch fails during set building, the
affected builder returns an empty data list and logs the error; the
query functions are total, so the failure never reaches the caller as
a fatal error. -/
theorem fetch_failure_degrades_to_empty (userOrgIds currentEvaluatorIds : List Nat)
    (organizationsMap : List (Nat × String))
    (ho : userOrgIds ≠ []) (he : currentEvaluatorIds ≠ []) (e : String)
    (approvedFetched rejectedFetched : Except String RespData) :
    (pendingPlansQueryFn userOrgIds currentEvaluatorIds organizationsMap
        (Except.error e)).data = [] ∧
    (pendingPlansQueryFn userOrgIds currentEvaluatorIds organizationsMap
        (Except.error e)).errorsLogged ≠ [] ∧
    (reviewedPlansQueryFn userOrgIds currentEvaluatorIds organizationsMap
        (Except.error e) rejectedFetched).data = [] ∧
    (reviewedPlansQueryFn userOrgIds currentEvaluatorIds organizationsMap
        (Except.error e) rejectedFetched).errorsLogged ≠ [] ∧
    (reviewedPlansQueryFn userOrgIds currentEvaluatorIds organizationsMap
        approvedFetched (Except.error e)).data = [] ∧
    (reviewedPlansQueryFn userOrgIds currentEvaluatorIds organizationsMap
        approvedFetched (Except.error e)).errorsLogged ≠ [] := by
  cases approvedFetched <;> cases rejectedFetched <;>
    simp [pendingPlansQueryFn, reviewedPlansQueryFn, ho, he]

/-- Witness for claim C6 at concrete inputs with both fetches failing. -/
theorem fetch_failure_degrades_to_empty_witness :
    ([1] : List Nat) ≠ [] ∧ ([7] : List Nat) ≠ [] ∧
    ((pendingPlansQueryFn [1] [7] [] (Except.error "down")).data = [] ∧
      (pendingPlansQueryFn [1] [7] [] (Except.error "down")).errorsLogged ≠ [] ∧
      (reviewedPlansQueryFn [1] [7] [] (Except.error "down")
        (Except.error "down")).data = [] ∧
      (reviewedPlansQueryFn [1] [7] [] (Except.error "down")
        (Except.error "down")).errorsLogged ≠ [] ∧
      (reviewedPlansQueryFn [1] [7] [] (Except.error "down")
        (Except.error "down")).data = [] ∧
      (reviewedPlansQueryFn [1] [7] [] (Except.error "down")
        (Except.error "down")).errorsLogged ≠ []) :=
  ⟨by decide, by decide,
    fetch_failure_degrades_to_empty [1] [7] [] (by decide) (by decide) "down"
      (Except.error "down") (Except.error "down")⟩

lemma hasMatch_eq_true_iff (currentEvaluatorIds : List Nat) (plan : Plan) :
    hasMatch currentEvaluatorIds plan = true ↔
      ∃ review ∈ plan.reviews.getD [], review.evaluator ∈ currentEvaluatorIds := by
  unfold hasMatch
  cases hr : plan.reviews <;> simp

lemma firstMatchingReview_none_iff (currentEvaluatorIds : List Nat) (reviews : List Review) :
    firstMatchingReview currentEvaluatorIds reviews = none ↔
      ∀ review ∈ reviews, review.evaluator ∉ currentEvaluatorIds := by
  unfold firstMatchingReview
  simp [List.find?_eq_none]

lemma dedupStep_subset (currentEvaluatorIds : List Nat) (organizationsMap : List (Nat × String))
    (acc : List ReviewedPlan) (plan : Plan) :
    acc ⊆ dedupStep currentEvaluatorIds organizationsMap acc plan := by
  intro x hx
  unfold dedupStep
  split
  · exact hx
  · split
    · exact hx
    · split
      · exact hx
      · exact List.mem_append_left _ hx

lemma dedupStep_mem_ids (currentEvaluatorIds : List Nat) (organizationsMap : List (Nat × String))
    (acc : List ReviewedPlan) (plan : Plan) (i : Nat) :
    (∃ rp ∈ dedupStep currentEvaluatorIds organizationsMap acc plan, rp.plan.id = i) ↔
      ((∃ rp ∈ acc, rp.plan.id = i) ∨
        (plan.id = i ∧ hasMatch currentEvaluatorIds plan = true)) := by
  unfold dedupStep
  split
  next hr =>
    simp [hasMatch, hr]
  next reviews hr =>
    have hm : hasMatch currentEvaluatorIds plan =
        reviews.any (fun review => currentEvaluatorIds.contains review.evaluator) := by
      simp [hasMatch, hr]
    split
    next hf =>
      have hany : reviews.any (fun review => currentEvaluatorIds.contains review.evaluator) = false := by
        rw [List.any_eq_false]
        intro review hrev
        have := (firstMatchingReview_none_iff currentEvaluatorIds reviews).mp hf review hrev
        simpa using this
      simp only [hm, hany]
      simp
    next review hf =>
      have hany : reviews.any (fun review => currentEvaluatorIds.contains review.evaluator) = true := by
        rw [List.any_eq_true]
        refine ⟨review, List.mem_of_find?_eq_some hf, ?_⟩
        have := List.find?_some hf
        simpa using this
      rw [hm, hany]
      split
      next hc =>
        rcases List.any_eq_true.mp hc with ⟨rp0, hrp0, hid0⟩
        have hid0' : rp0.plan.id = plan.id := by simpa using hid0
        simp only [and_true]
        constructor
        · exact Or.inl
        · rintro (h | h)
          · exact h
          · exact ⟨rp0, hrp0, by rw [hid0', h]⟩
      next hc =>
        simp only [and_true]
        constructor
        · rintro ⟨rp1, hrp1, hrp1i⟩
          rcases List.mem_append.mp hrp1 with h1 | h1
          · exact Or.inl ⟨rp1, h1, hrp1i⟩
          · rcases List.mem_singleton.mp h1 with rfl
            exact Or.inr (by simpa using hrp1i)
        · rintro (⟨rp1, hrp1, hrp1i⟩ | h)
          · exact ⟨rp1, List.mem_append.mpr (Or.inl hrp1), hrp1i⟩
          · exact ⟨_, List.mem_append.mpr (Or.inr (List.mem_singleton.mpr rfl)), by simpa using h⟩

lemma firstMatchingReview_some_any (currentEvaluatorIds : List Nat) (reviews : List Review)
    (review : Review)
    (hf : firstMatchingReview currentEvaluatorIds reviews = some review) :
    reviews.any (fun r => currentEvaluatorIds.contains r.evaluator) = true := by
  rw [List.any_eq_true]
  refine ⟨review, List.mem_of_find?_eq_some hf, ?_⟩
  have := List.find?_some hf
  simpa using this

lemma dedupStep_mem (currentEvaluatorIds : List Nat) (organizationsMap : List (Nat × String))
    (acc : List ReviewedPlan) (plan : Plan) (rp : ReviewedPlan)
    (h : rp ∈ dedupStep currentEvaluatorIds organizationsMap acc plan) :
    rp ∈ acc ∨
      ((∀ rp0 ∈ acc, rp0.plan.id ≠ plan.id) ∧
        hasMatch currentEvaluatorIds plan = true ∧
        rp.plan = plan ∧
        (∃ reviews, plan.reviews = some reviews ∧
          firstMatchingReview currentEvaluatorIds reviews = some rp.currentEvaluatorReview) ∧
        rp.organizationName = orgNameOr organizationsMap plan.organization) := by
  unfold dedupStep at h
  split at h
  · exact Or.inl h
  next reviews hr =>
    split at h
    · exact Or.inl h
    next review hf =>
      split at h
      · exact Or.inl h
      next hc =>
        rcases List.mem_append.mp h with h1 | h1
        · exact Or.inl h1
        rcases List.mem_singleton.mp h1 with rfl
        refine Or.inr ⟨?_, ?_, rfl, ⟨reviews, hr, hf⟩, rfl⟩
        · intro rp0 hrp0 heq
          exact hc (List.any_eq_true.mpr ⟨rp0, hrp0, by simpa using heq⟩)
        · have hm : hasMatch currentEvaluatorIds plan =
              reviews.any (fun r => currentEvaluatorIds.contains r.evaluator) := by
            simp [hasMatch, hr]
          rw [hm]
          exact firstMatchingReview_some_any currentEvaluatorIds reviews review hf

lemma dedup_foldl_mem_ids (currentEvaluatorIds : List Nat) (organizationsMap : List (Nat × String))
    (l : List Plan) (acc : List ReviewedPlan) (i : Nat) :
    (∃ rp ∈ l.foldl (dedupStep currentEvaluatorIds organizationsMap) acc, rp.plan.id = i) ↔
      ((∃ rp ∈ acc, rp.plan.id = i) ∨
        ∃ p ∈ l, p.id = i ∧ hasMatch currentEvaluatorIds p = true) := by
  induction l generalizing acc with
  | nil => simp
  | cons p l ih =>
      rw [List.foldl_cons, ih, dedupStep_mem_ids]
      simp only [List.mem_cons]
      constructor
      · rintro ((h | h) | ⟨q, hq, hqi⟩)
        · exact Or.inl h
        · exact Or.inr ⟨p, Or.inl rfl, h⟩
        · exact Or.inr ⟨q, Or.inr hq, hqi⟩
      · rintro (h | ⟨q, (rfl | hq), hqi⟩)
        · exact Or.inl (Or.inl h)
        · exact Or.inl (Or.inr hqi)
        · exact Or.inr ⟨q, hq, hqi⟩

lemma dedup_foldl_first (currentEvaluatorIds : List Nat) (organizationsMap : List (Nat × String))
    (l : List Plan) (acc : List ReviewedPlan) (rp : ReviewedPlan)
    (h : rp ∈ l.foldl (dedupStep currentEvaluatorIds organizationsMap) acc) :
    rp ∈ acc ∨
      ((∀ rp0 ∈ acc, rp0.plan.id ≠ rp.plan.id) ∧
        l.find? (fun p => p.id == rp.plan.id && hasMatch currentEvaluatorIds p) = some rp.plan ∧
        (∃ reviews, rp.plan.reviews = some reviews ∧
          firstMatchingReview currentEvaluatorIds reviews = some rp.currentEvaluatorReview) ∧
        rp.organizationName = orgNameOr organizationsMap rp.plan.organization) := by
  induction l generalizing acc with
  | nil => exact Or.inl h
  | cons p l ih =>
      rw [List.foldl_cons] at h
      rcases ih (dedupStep currentEvaluatorIds organizationsMap acc p) h with
        hmem | ⟨hnot, hfind, hshape, horg⟩
      · rcases dedupStep_mem currentEvaluatorIds organizationsMap acc p rp hmem with
          h1 | ⟨hnone, hmatch, hplan, hshape, horg⟩
        · exact Or.inl h1
        · refine Or.inr ⟨?_, ?_, ?_, ?_⟩
          · intro rp0 hrp0
            rw [hplan]
            exact hnone rp0 hrp0
          · rw [List.find?_cons_of_pos, hplan]
            rw [hplan]
            simp [hmatch]
          · rw [hplan]
            exact hshape
          · rw [hplan]
            exact horg
      · have hsub := dedupStep_subset currentEvaluatorIds organizationsMap acc p
        refine Or.inr ⟨fun rp0 h0 => hnot rp0 (hsub h0), ?_, hshape, horg⟩
        rw [List.find?_cons_of_neg]
        · exact hfind
        · intro hpred
          have hand : p.id = rp.plan.id ∧ hasMatch currentEvaluatorIds p = true := by
            simpa using hpred
          have hids := (dedupStep_mem_ids currentEvaluatorIds organizationsMap acc p
            rp.plan.id).mpr (Or.inr ⟨hand.1, hand.2⟩)
          rcases hids with ⟨rp1, hrp1, hrp1i⟩
          exact hnot rp1 hrp1 hrp1i

lemma dedupStep_nodup_ids (currentEvaluatorIds : List Nat) (organizationsMap : List (Nat × String))
    (acc : List ReviewedPlan) (plan : Plan)
    (h : (acc.map (fun rp => rp.plan.id)).Nodup) :
    ((dedupStep currentEvaluatorIds organizationsMap acc plan).map
      (fun rp => rp.plan.id)).Nodup := by
  unfold dedupStep
  split
  · exact h
  next reviews hr =>
    split
    · exact h
    next review hf =>
      split
      · exact h
      next hc =>
        rw [List.map_append, List.nodup_append]
        refine ⟨h, by simp, ?_⟩
        intro x hx hx2
        have hx2' : x = plan.id := by simpa using hx2
        rcases List.mem_map.mp hx with ⟨rp0, hrp0, hrpid⟩
        exact hc (List.any_eq_true.mpr ⟨rp0, hrp0, by simp [hrpid, hx2']⟩)

lemma dedup_foldl_nodup_ids (currentEvaluatorIds : List Nat) (organizationsMap : List (Nat × String))
    (l : List Plan) (acc : List ReviewedPlan)
    (h : (acc.map (fun rp => rp.plan.id)).Nodup) :
    ((l.foldl (dedupStep currentEvaluatorIds organizationsMap) acc).map
      (fun rp => rp.plan.id)).Nodup := by
  induction l generalizing acc with
  | nil => exact h
  | cons p l ih => exact ih _ (dedupStep_nodup_ids currentEvaluatorIds organizationsMap acc p h)

lemma reviewedPlansQueryFn_ok_data (userOrgIds currentEvaluatorIds : List Nat)
    (organizationsMap : List (Nat × String)) (approvedList rejectedList : List Plan)
    (ho : userOrgIds ≠ []) (he : currentEvaluatorIds ≠ []) :
    (reviewedPlansQueryFn userOrgIds currentEvaluatorIds organizationsMap
        (Except.ok (RespData.bare approvedList))
        (Except.ok (RespData.bare rejectedList))).data =
      dedupReviewed currentEvaluatorIds organizationsMap (approvedList ++ rejectedList) := by
  simp [reviewedPlansQueryFn, spreadPlans, ho, he]

/-- Claim C2: over status-homogeneous fetch results, a submission id
appears in the decided-set builder output iff some fetched record with
that id has status APPROVED or REJECTED and a decision record by the
caller; output ids are pairwise distinct; and each output entry is the
first qualifying occurrence in the approved-then-rejected
concatenation, attributed to the first matching decision record of
that occurrence and annotated with the resolved organization name. -/
theorem decided_set_characterization (userOrgIds currentEvaluatorIds : List Nat)
    (organizationsMap : List (Nat × String)) (approvedList rejectedList : List Plan)
    (ho : userOrgIds ≠ []) (he : currentEvaluatorIds ≠ [])
    (hA : ∀ p ∈ approvedList, p.status = "APPROVED")
    (hR : ∀ p ∈ rejectedList, p.status = "REJECTED") :
    (∀ i : Nat,
      (∃ rp ∈ (reviewedPlansQueryFn userOrgIds currentEvaluatorIds organizationsMap
          (Except.ok (RespData.bare approvedList))
          (Except.ok (RespData.bare rejectedList))).data, rp.plan.id = i) ↔
        ∃ p ∈ approvedList ++ rejectedList, p.id = i ∧
          (p.status = "APPROVED" ∨ p.status = "REJECTED") ∧
          ∃ review ∈ p.reviews.getD [], review.evaluator ∈ currentEvaluatorIds) ∧
    (((reviewedPlansQueryFn userOrgIds currentEvaluatorIds organizationsMap
        (Except.ok (RespData.bare approvedList))
        (Except.ok (RespData.bare rejectedList))).data).map
      (fun rp => rp.plan.id)).Nodup ∧
    (∀ rp ∈ (reviewedPlansQueryFn userOrgIds currentEvaluatorIds organizationsMap
        (Except.ok (RespData.bare approvedList))
        (Except.ok (RespData.bare rejectedList))).data,
      (approvedList ++ rejectedList).find?
          (fun p => p.id == rp.plan.id && hasMatch currentEvaluatorIds p) = some rp.plan ∧
      (∃ reviews, rp.plan.reviews = some reviews ∧
        firstMatchingReview currentEvaluatorIds reviews = some rp.currentEvaluatorReview) ∧
      rp.organizationName = orgNameOr organizationsMap rp.plan.organization) := by
  rw [reviewedPlansQueryFn_ok_data userOrgIds currentEvaluatorIds organizationsMap
    approvedList rejectedList ho he]
  refine ⟨?_, ?_, ?_⟩
  · intro i
    rw [dedupReviewed, dedup_foldl_mem_ids]
    simp only [List.not_mem_nil, false_and, exists_false, exists_const, false_or]
    constructor
    · rintro ⟨p, hp, hpi, hpm⟩
      refine ⟨p, hp, hpi, ?_, (hasMatch_eq_true_iff currentEvaluatorIds p).mp hpm⟩
      rcases List.mem_append.mp hp with h1 | h1
      · exact Or.inl (hA p h1)
      · exact Or.inr (hR p h1)
    · rintro ⟨p, hp, hpi, _, hrev⟩
      exact ⟨p, hp, hpi, (hasMatch_eq_true_iff currentEvaluatorIds p).mpr hrev⟩
  · exact dedup_foldl_nodup_ids currentEvaluatorIds organizationsMap
      (approvedList ++ rejectedList) [] (by simp)
  · intro rp hrp
    rcases dedup_foldl_first currentEvaluatorIds organizationsMap
      (approvedList ++ rejectedList) [] rp hrp with hmem | ⟨_, hfind, hshape, horg⟩
    · exact absurd hmem (List.not_mem_nil rp)
    · exact ⟨hfind, hshape, horg⟩

/-- The decision record of reviewer 7 on the duplicated submission of
the spec scenario. -/
def reviewOk : Review :=
  { evaluator := 7, status := "APPROVED", feedback := "ok", reviewed_at := none }

/-- The APPROVED copy of submission 5 in the spec scenario. -/
def plan5A : Plan :=
  { id := 5, organization := 1, planner_name := "p", status := "APPROVED",
    submitted_at := none, from_date := none, to_date := none,
    organization_name := none, reviews := some [reviewOk] }

/-- The stale REJECTED copy of submission 5 returned by the rejected
fetch in the spec scenario. -/
def plan5R : Plan :=
  { id := 5, organization := 1, planner_name := "p", status := "REJECTED",
    submitted_at := none, from_date := none, to_date := none,
    organization_name := none, reviews := some [reviewOk] }

/-- Witness for claim C2 at the spec scenario: the approved fetch
returns submission 5 with a decision by reviewer 7 and feedback "ok",
the rejected fetch returns a stale duplicate of id 5; the decided set
holds id 5 exactly once, attributed to the decision with feedback
"ok". -/
theorem decided_set_characterization_witness :
    (([1] : List Nat) ≠ [] ∧ ([7] : List Nat) ≠ [] ∧
      (∀ p ∈ [plan5A], p.status = "APPROVED") ∧
      (∀ p ∈ [plan5R], p.status = "REJECTED")) ∧
    (reviewedPlansQueryFn [1] [7] [(1, "Org One")]
        (Except.ok (RespData.bare [plan5A]))
        (Except.ok (RespData.bare [plan5R]))).data =
      [{ plan := plan5A, organizationName := "Org One",
         currentEvaluatorReview := reviewOk }] ∧
    ((∀ i : Nat,
      (∃ rp ∈ (reviewedPlansQueryFn [1] [7] [(1, "Org One")]
          (Except.ok (RespData.bare [plan5A]))
          (Except.ok (RespData.bare [plan5R]))).data, rp.plan.id = i) ↔
        ∃ p ∈ [plan5A] ++ [plan5R], p.id = i ∧
          (p.status = "APPROVED" ∨ p.status = "REJECTED") ∧
          ∃ review ∈ p.reviews.getD [], review.evaluator ∈ ([7] : List Nat)) ∧
    (((reviewedPlansQueryFn [1] [7] [(1, "Org One")]
        (Except.ok (RespData.bare [plan5A]))
        (Except.ok (RespData.bare [plan5R]))).data).map
      (fun rp => rp.plan.id)).Nodup ∧
    (∀ rp ∈ (reviewedPlansQueryFn [1] [7] [(1, "Org One")]
        (Except.ok (RespData.bare [plan5A]))
        (Except.ok (RespData.bare [plan5R]))).data,
      ([plan5A] ++ [plan5R]).find?
          (fun p => p.id == rp.plan.id && hasMatch [7] p) = some rp.plan ∧
      (∃ reviews, rp.plan.reviews = some reviews ∧
        firstMatchingReview [7] reviews = some rp.currentEvaluatorReview) ∧
      rp.organizationName = orgNameOr [(1, "Org One")] rp.plan.organization)) :=
  ⟨⟨by decide, by decide, by decide, by decide⟩, by decide,
    decided_set_characterization [1] [7] [(1, "Org One")] [plan5A] [plan5R]
      (by decide) (by decide) (by decide) (by decide)⟩

lemma insertIfNew_of_not_mem (s : List Nat) (x : Nat) (h : x ∉ s) :
    insertIfNew s x = s ++ [x] := by
  simp [insertIfNew, h]

lemma statsStep_foldl_invariant (l : List ReviewedPlan) (s : IdSets)
    (hlen : s.rev.length = s.app.length + s.rej.length)
    (happ : ∀ x ∈ s.app, x ∈ s.rev) (hrej : ∀ x ∈ s.rej, x ∈ s.rev)
    (hdisj : ∀ x ∈ s.rev, x ∉ l.map (fun p => p.plan.id))
    (hnodup : (l.map (fun p => p.plan.id)).Nodup) :
    (l.foldl statsStep s).rev.length =
      (l.foldl statsStep s).app.length + (l.foldl statsStep s).rej.length := by
  induction l generalizing s with
  | nil => exact hlen
  | cons p l ih =>
      rw [List.foldl_cons]
      simp only [List.map_cons, List.nodup_cons] at hnodup
      have hpid : p.plan.id ∉ s.rev := by
        intro h
        exact hdisj p.plan.id h (by simp)
      have hpapp : p.plan.id ∉ s.app := fun h => hpid (happ _ h)
      have hprej : p.plan.id ∉ s.rej := fun h => hpid (hrej _ h)
      have hdisj' : ∀ x ∈ s.rev, x ∉ l.map (fun q => q.plan.id) := by
        intro x hx hmem
        exact hdisj x hx (by simp only [List.map_cons, List.mem_cons]; exact Or.inr hmem)
      by_cases hAp : p.plan.status = "APPROVED"
      · have hstep : statsStep s p =
            { rev := s.rev ++ [p.plan.id], app := s.app ++ [p.plan.id], rej := s.rej } := by
          simp [statsStep, hAp, insertIfNew_of_not_mem s.rev p.plan.id hpid,
            insertIfNew_of_not_mem s.app p.plan.id hpapp]
        rw [hstep]
        refine ih _ ?_ ?_ ?_ ?_ hnodup.2
        · simp [hlen, Nat.add_right_comm]
        · intro x hx
          rcases List.mem_append.mp hx with h1 | h1
          · exact List.mem_append_left _ (happ x h1)
          · exact List.mem_append_right _ h1
        · intro x hx
          exact List.mem_append_left _ (hrej x hx)
        · intro x hx
          rcases List.mem_append.mp hx with h1 | h1
          · exact hdisj' x h1
          · rcases List.mem_singleton.mp h1 with rfl
            exact hnodup.1
      · by_cases hRj : p.plan.status = "REJECTED"
        · have hstep : statsStep s p =
              { rev := s.rev ++ [p.plan.id], app := s.app, rej := s.rej ++ [p.plan.id] } := by
            simp [statsStep, hRj, insertIfNew_of_not_mem s.rev p.plan.id hpid,
              insertIfNew_of_not_mem s.rej p.plan.id hprej]
          rw [hstep]
          refine ih _ ?_ ?_ ?_ ?_ hnodup.2
          · simp [hlen, Nat.add_assoc]
          · intro x hx
            exact List.mem_append_left _ (happ x hx)
          · intro x hx
            rcases List.mem_append.mp hx with h1 | h1
            · exact List.mem_append_left _ (hrej x h1)
            · exact List.mem_append_right _ h1
          · intro x hx
            rcases List.mem_append.mp hx with h1 | h1
            · exact hdisj' x h1
            · rcases List.mem_singleton.mp h1 with rfl
              exact hnodup.1
        · have hstep : statsStep s p = s := by
            simp [statsStep, hAp, hRj]
          rw [hstep]
          exact ih s hlen happ hrej hdisj' hnodup.2

lemma stats_reviewed_split_of_nodup (pendingData : List PendingPlan)
    (reviewedData : List ReviewedPlan)
    (h : (reviewedData.map (fun p => p.plan.id)).Nodup) :
    (statistics pendingData reviewedData).reviewedCount =
      (statistics pendingData reviewedData).approvedCount +
        (statistics pendingData reviewedData).rejectedCount := by
  have := statsStep_foldl_invariant reviewedData { rev := [], app := [], rej := [] }
    rfl (by simp) (by simp) (by simp) h
  simpa [statistics] using this

lemma reviewedPlansQueryFn_nodup_ids (userOrgIds currentEvaluatorIds : List Nat)
    (organizationsMap : List (Nat × String))
    (approvedFetched rejectedFetched : Except String RespData) :
    (((reviewedPlansQueryFn userOrgIds currentEvaluatorIds organizationsMap
        approvedFetched rejectedFetched).data).map (fun rp => rp.plan.id)).Nodup := by
  unfold reviewedPlansQueryFn
  by_cases hg : (userOrgIds.length == 0 || currentEvaluatorIds.length == 0) = true
  · simp [hg]
  · simp only [hg]
    cases approvedFetched with
    | error e => simp
    | ok approvedResp =>
        cases rejectedFetched with
        | error e => simp
        | ok rejectedResp =>
            simp only
            cases hA : spreadPlans approvedResp with
            | none => simp [hA]
            | some approvedPlans =>
                cases hB : spreadPlans rejectedResp with
                | none => simp [hA, hB]
                | some rejectedPlans =>
                    simp only [hA, hB, if_neg hg]
                    exact dedup_foldl_nodup_ids currentEvaluatorIds organizationsMap
                      (approvedPlans ++ rejectedPlans) [] (by simp)

/-- Claim C4: for every pair of builder outputs, the statistics
aggregator satisfies reviewedCount = approvedCount + rejectedCount,
the three counts being distinct-id counts of the decided list and of
its APPROVED / REJECTED partitions. -/
theorem statistics_reviewed_split (userOrgIds currentEvaluatorIds : List Nat)
    (organizationsMap : List (Nat × String))
    (approvedFetched rejectedFetched : Except String RespData)
    (pendingData : List PendingPlan) :
    (statistics pendingData
        (reviewedPlansQueryFn userOrgIds currentEvaluatorIds organizationsMap
          approvedFetched rejectedFetched).data).reviewedCount =
      (statistics pendingData
        (reviewedPlansQueryFn userOrgIds currentEvaluatorIds organizationsMap
          approvedFetched rejectedFetched).data).approvedCount +
      (statistics pendingData
        (reviewedPlansQueryFn userOrgIds currentEvaluatorIds organizationsMap
          approvedFetched rejectedFetched).data).rejectedCount :=
  stats_reviewed_split_of_nodup pendingData _
    (reviewedPlansQueryFn_nodup_ids userOrgIds currentEvaluatorIds organizationsMap
      approvedFetched rejectedFetched)

/-- Claim C5: the review mutation issues exactly one POST, to the
approve endpoint for an APPROVED outcome and to the reject endpoint
for a REJECTED outcome, with body status equal to the outcome and
feedback defaulted to the empty string when absent, and with the
timestamp appended as a cache-busting query parameter; on success it
invalidates both builder caches, clears the modal and the selection,
and sets a success notice scheduled to self-clear after 3000 ms. -/
theorem review_submission_coordinator (planId : String) (feedback : Option String)
    (timestamp : Nat) (st : DashState) :
    (reviewMutationFn planId "APPROVED" feedback timestamp).length = 1 ∧
    (reviewMutationFn planId "REJECTED" feedback timestamp).length = 1 ∧
    reviewMutationFn planId "APPROVED" feedback timestamp =
      [{ url := "/plans/" ++ planId ++ "/approve/?_=" ++ toString timestamp,
         payload := { status := "APPROVED", feedback := jsOrEmpty feedback } }] ∧
    reviewMutationFn planId "REJECTED" feedback timestamp =
      [{ url := "/plans/" ++ planId ++ "/reject/?_=" ++ toString timestamp,
         payload := { status := "REJECTED", feedback := jsOrEmpty feedback } }] ∧
    jsOrEmpty none = "" ∧
    (onReviewSuccess st).invalidated =
      st.invalidated ++ ["evaluator-pending-plans", "evaluator-reviewed-plans"] ∧
    (onReviewSuccess st).showReviewModal = false ∧
    (onReviewSuccess st).selectedPlan = none ∧
    (onReviewSuccess st).success = some "Plan review submitted successfully" ∧
    (onReviewSuccess st).timers = st.timers ++ [(3000, "success")] := by
  refine ⟨?_, ?_, ?_, ?_, rfl, rfl, rfl, rfl, rfl, rfl⟩ <;> simp [reviewMutationFn]

/-- The privileged roles other than Evaluator that the specification
names; the role vocabulary itself is open (any string). -/
def privilegedRole (role : String) : Prop :=
  role = "ADMIN" ∨ role = "PLANNER"

/-- Claim C9: over the open role vocabulary, the reviewer-only flag is
true iff the caller holds an Evaluator role-record and holds no
role-record with a privileged role other than Evaluator. -/
theorem reviewer_only_flag (userOrganizations : List UserOrg) :
    isOnlyEvaluator userOrganizations = true ↔
      ((∃ org ∈ userOrganizations, org.role = "EVALUATOR") ∧
        ∀ org ∈ userOrganizations, ¬ privilegedRole org.role) := by
  simp only [isOnlyEvaluator, privilegedRole, Bool.and_eq_true, Bool.not_eq_true,
    not_or]
  constructor
  · rintro ⟨⟨h1, h2⟩, h3⟩
    refine ⟨?_, ?_⟩
    · have : "EVALUATOR" ∈ userOrganizations.map (fun org => org.role) := by
        simpa using h1
      rcases List.mem_map.mp this with ⟨org, horg, hrole⟩
      exact ⟨org, horg, hrole⟩
    · intro org horg
      have hadm : "ADMIN" ∉ userOrganizations.map (fun org => org.role) := by
        simpa using h2
      have hpla : "PLANNER" ∉ userOrganizations.map (fun org => org.role) := by
        simpa using h3
      constructor
      · intro h
        exact hadm (List.mem_map.mpr ⟨org, horg, h⟩)
      · intro h
        exact hpla (List.mem_map.mpr ⟨org, horg, h⟩)
  · rintro ⟨⟨org, horg, hrole⟩, hnone⟩
    refine ⟨⟨?_, ?_⟩, ?_⟩
    · simpa using List.mem_map.mpr ⟨org, horg, hrole⟩
    · have : "ADMIN" ∉ userOrganizations.map (fun org => org.role) := by
        intro h
        rcases List.mem_map.mp h with ⟨org2, horg2, hrole2⟩
        exact (hnone org2 horg2).1 hrole2
      simpa using this
    · have : "PLANNER" ∉ userOrganizations.map (fun org => org.role) := by
        intro h
        rcases List.mem_map.mp h with ⟨org2, horg2, hrole2⟩
        exact (hnone org2 horg2).2 hrole2
      simpa using this

/-- Claim C7: when the bulk organization fetch fails, the permission
check leaves an empty organization map, still completes initialization
(auth is marked checked, no blocking error), and records a warning;
and name resolution falls back to the synthesized placeholder for an
empty cache, for an id absent from the cache, and in the render-time
getter for a plan without a server-provided name. -/
theorem org_fetch_failure_fallback (authData : AuthData) (e : String)
    (h1 : authData.isAuthenticated = true)
    (h2 : isEvaluator authData.userOrganizations = true)
    (organizationsMap : List (Nat × String)) (orgId : Nat) (plan : Plan) :
    (checkPermissions (Except.ok authData) (Except.error e)).organizationsMap = [] ∧
    (checkPermissions (Except.ok authData) (Except.error e)).isAuthChecked = true ∧
    (checkPermissions (Except.ok authData) (Except.error e)).warnings ≠ [] ∧
    (checkPermissions (Except.ok authData) (Except.error e)).error = none ∧
    orgNameOr [] orgId = "Organization " ++ toString orgId ∧
    (organizationsMap.lookup orgId = none →
      orgNameOr organizationsMap orgId = "Organization " ++ toString orgId) ∧
    (plan.organization_name = none →
      getOrganizationName [] none plan = "Organization " ++ toString plan.organization) := by
  have hne : authData.userOrganizations ≠ [] := by
    intro hnil
    rw [isEvaluator, hnil] at h2
    simp at h2
  have hlen : 0 < authData.userOrganizations.length := List.length_pos.mpr hne
  refine ⟨?_, ?_, ?_, ?_, by simp [orgNameOr], ?_, ?_⟩
  · simp [checkPermissions, h1, h2, hlen]
  · simp [checkPermissions, h1, h2, hlen]
  · simp [checkPermissions, h1, h2, hlen]
  · simp [checkPermissions, h1, h2, hlen]
  · intro h
    simp [orgNameOr, h]
  · intro h
    simp [getOrganizationName, h]

/-- A caller identity holding a single Evaluator role-record. -/
def authEval : AuthData :=
  { isAuthenticated := true,
    userOrganizations := [{ id := 7, organization := 1, role := "EVALUATOR" }] }

/-- Witness for claim C7 at a concrete identity, a failing bulk fetch,
a cache missing id 1, and a plan without a server-provided name. -/
theorem org_fetch_failure_fallback_witness :
    (authEval.isAuthenticated = true ∧ isEvaluator authEval.userOrganizations = true) ∧
    ((checkPermissions (Except.ok authEval) (Except.error "down")).organizationsMap = [] ∧
      (checkPermissions (Except.ok authEval) (Except.error "down")).isAuthChecked = true ∧
      (checkPermissions (Except.ok authEval) (Except.error "down")).warnings ≠ [] ∧
      (checkPermissions (Except.ok authEval) (Except.error "down")).error = none ∧
      orgNameOr [] 1 = "Organization " ++ toString 1 ∧
      (([(2, "B")] : List (Nat × String)).lookup 1 = none →
        orgNameOr [(2, "B")] 1 = "Organization " ++ toString 1) ∧
      (planSub9.organization_name = none →
        getOrganizationName [] none planSub9 =
          "Organization " ++ toString planSub9.organization)) :=
  ⟨⟨by decide, by decide⟩,
    org_fetch_failure_fallback authEval "down" (by decide) (by decide) [(2, "B")] 1 planSub9⟩

/-- Claim C8 (amended): the two documented envelope shapes extract
identically in both builders, and a falsy response body is treated as
an empty submission list.  Other truthy shapes are not uniformly
treated as an empty list: the pending builder calls filter on the
extracted value, which throws on strings and non-arrays alike, so it
takes the error path (empty result, error logged); the decided
builder spreads the extracted value, so a string body is consumed
without throwing — its characters are all skipped and it acts as an
empty list, the other fetch being kept — while a non-iterable body
throws and empties the whole decided result, the other fetch
included. -/
theorem envelope_tolerance (userOrgIds currentEvaluatorIds : List Nat)
    (organizationsMap : List (Nat × String)) (s : String)
    (plansArr approvedList rejectedList : List Plan)
    (approvedFetched rejectedFetched : Except String RespData)
    (ho : userOrgIds ≠ []) (he : currentEvaluatorIds ≠ []) :
    pendingPlansQueryFn userOrgIds currentEvaluatorIds organizationsMap
        (Except.ok (RespData.envelope plansArr)) =
      pendingPlansQueryFn userOrgIds currentEvaluatorIds organizationsMap
        (Except.ok (RespData.bare plansArr)) ∧
    reviewedPlansQueryFn userOrgIds currentEvaluatorIds organizationsMap
        (Except.ok (RespData.envelope approvedList))
        (Except.ok (RespData.envelope rejectedList)) =
      reviewedPlansQueryFn userOrgIds currentEvaluatorIds organizationsMap
        (Except.ok (RespData.bare approvedList))
        (Except.ok (RespData.bare rejectedList)) ∧
    pendingPlansQueryFn userOrgIds currentEvaluatorIds organizationsMap
        (Except.ok RespData.nullish) =
      pendingPlansQueryFn userOrgIds currentEvaluatorIds organizationsMap
        (Except.ok (RespData.bare [])) ∧
    reviewedPlansQueryFn userOrgIds currentEvaluatorIds organizationsMap
        (Except.ok RespData.nullish) (Except.ok (RespData.bare rejectedList)) =
      reviewedPlansQueryFn userOrgIds currentEvaluatorIds organizationsMap
        (Except.ok (RespData.bare [])) (Except.ok (RespData.bare rejectedList)) ∧
    reviewedPlansQueryFn userOrgIds currentEvaluatorIds organizationsMap
        (Except.ok (RespData.bare approvedList)) (Except.ok RespData.nullish) =
      reviewedPlansQueryFn userOrgIds currentEvaluatorIds organizationsMap
        (Except.ok (RespData.bare approvedList)) (Except.ok (RespData.bare [])) ∧
    (pendingPlansQueryFn userOrgIds currentEvaluatorIds organizationsMap
        (Except.ok (RespData.strBody s))).data = [] ∧
    (pendingPlansQueryFn userOrgIds currentEvaluatorIds organizationsMap
        (Except.ok (RespData.strBody s))).errorsLogged ≠ [] ∧
    (pendingPlansQueryFn userOrgIds currentEvaluatorIds organizationsMap
        (Except.ok RespData.other)).data = [] ∧
    (pendingPlansQueryFn userOrgIds currentEvaluatorIds organizationsMap
        (Except.ok RespData.other)).errorsLogged ≠ [] ∧
    reviewedPlansQueryFn userOrgIds currentEvaluatorIds organizationsMap
        (Except.ok (RespData.strBody s)) rejectedFetched =
      reviewedPlansQueryFn userOrgIds currentEvaluatorIds organizationsMap
        (Except.ok (RespData.bare [])) rejectedFetched ∧
    reviewedPlansQueryFn userOrgIds currentEvaluatorIds organizationsMap
        approvedFetched (Except.ok (RespData.strBody s)) =
      reviewedPlansQueryFn userOrgIds currentEvaluatorIds organizationsMap
        approvedFetched (Except.ok (RespData.bare [])) ∧
    (reviewedPlansQueryFn userOrgIds currentEvaluatorIds organizationsMap
        (Except.ok RespData.other) rejectedFetched).data = [] ∧
    (reviewedPlansQueryFn userOrgIds currentEvaluatorIds organizationsMap
        (Except.ok RespData.other) rejectedFetched).errorsLogged ≠ [] ∧
    (reviewedPlansQueryFn userOrgIds currentEvaluatorIds organizationsMap
        approvedFetched (Except.ok RespData.other)).data = [] ∧
    (reviewedPlansQueryFn userOrgIds currentEvaluatorIds organizationsMap
        approvedFetched (Except.ok RespData.other)).errorsLogged ≠ [] := by
  have hg : (userOrgIds.length == 0 || currentEvaluatorIds.length == 0) = false := by
    simp [ho, he]
  refine ⟨rfl, rfl, rfl, rfl, rfl, ?_, ?_, ?_, ?_, ?_, ?_, ?_, ?_, ?_, ?_⟩
  · simp [pendingPlansQueryFn, extractPlans, hg]
  · simp [pendingPlansQueryFn, extractPlans, hg]
  · simp [pendingPlansQueryFn, extractPlans, hg]
  · simp [pendingPlansQueryFn, extractPlans, hg]
  · cases rejectedFetched with
    | error e => simp [reviewedPlansQueryFn, hg]
    | ok rejectedResp =>
        cases hx : spreadPlans rejectedResp <;>
          simp [reviewedPlansQueryFn, spreadPlans, hg, hx]
  · cases approvedFetched with
    | error e => simp [reviewedPlansQueryFn, hg]
    | ok approvedResp =>
        cases hx : spreadPlans approvedResp <;>
          simp [reviewedPlansQueryFn, spreadPlans, hg, hx]
  · cases rejectedFetched <;> simp [reviewedPlansQueryFn, spreadPlans, hg]
  · cases rejectedFetched <;> simp [reviewedPlansQueryFn, spreadPlans, hg]
  · cases approvedFetched with
    | error e => simp [reviewedPlansQueryFn, hg]
    | ok approvedResp =>
        cases hx : spreadPlans approvedResp <;>
          simp [reviewedPlansQueryFn, spreadPlans, hg, hx]
  · cases approvedFetched with
    | error e => simp [reviewedPlansQueryFn, hg]
    | ok approvedResp =>
        cases hx : spreadPlans approvedResp <;>
          simp [reviewedPlansQueryFn, spreadPlans, hg, hx]

/-- Counterexample to claim C8 as stated: a truthy non-iterable
response body on the approved fetch is not treated as an empty
submission list; the spread throws, and the decided-set builder
returns an empty overall result, dropping the qualifying submission
delivered by the rejected fetch, which treating the malformed body as
an empty list would have kept. -/
theorem envelope_other_shape_counterexample :
    (reviewedPlansQueryFn [1] [7] [] (Except.ok RespData.other)
        (Except.ok (RespData.bare [plan5R]))).data = [] ∧
    (reviewedPlansQueryFn [1] [7] [] (Except.ok (RespData.bare []))
        (Except.ok (RespData.bare [plan5R]))).data ≠ [] := by
  constructor <;> decide

/-- Witness for the amended claim C8 at concrete inputs: non-empty id
sets, the string body "abc", and concrete plan lists in every
position. -/
theorem envelope_tolerance_witness :
    (([1] : List Nat) ≠ [] ∧ ([7] : List Nat) ≠ []) ∧
    (pendingPlansQueryFn [1] [7] [] (Except.ok (RespData.envelope [planSub9])) =
        pendingPlansQueryFn [1] [7] [] (Except.ok (RespData.bare [planSub9])) ∧
      reviewedPlansQueryFn [1] [7] [] (Except.ok (RespData.envelope [plan5A]))
          (Except.ok (RespData.envelope [plan5R])) =
        reviewedPlansQueryFn [1] [7] [] (Except.ok (RespData.bare [plan5A]))
          (Except.ok (RespData.bare [plan5R])) ∧
      pendingPlansQueryFn [1] [7] [] (Except.ok RespData.nullish) =
        pendingPlansQueryFn [1] [7] [] (Except.ok (RespData.bare [])) ∧
      reviewedPlansQueryFn [1] [7] [] (Except.ok RespData.nullish)
          (Except.ok (RespData.bare [plan5R])) =
        reviewedPlansQueryFn [1] [7] [] (Except.ok (RespData.bare []))
          (Except.ok (RespData.bare [plan5R])) ∧
      reviewedPlansQueryFn [1] [7] [] (Except.ok (RespData.bare [plan5A]))
          (Except.ok RespData.nullish) =
        reviewedPlansQueryFn [1] [7] [] (Except.ok (RespData.bare [plan5A]))
          (Except.ok (RespData.bare [])) ∧
      (pendingPlansQueryFn [1] [7] [] (Except.ok (RespData.strBody "abc"))).data = [] ∧
      (pendingPlansQueryFn [1] [7] [] (Except.ok (RespData.strBody "abc"))).errorsLogged ≠ [] ∧
      (pendingPlansQueryFn [1] [7] [] (Except.ok RespData.other)).data = [] ∧
      (pendingPlansQueryFn [1] [7] [] (Except.ok RespData.other)).errorsLogged ≠ [] ∧
      reviewedPlansQueryFn [1] [7] [] (Except.ok (RespData.strBody "abc"))
          (Except.ok (RespData.bare [plan5R])) =
        reviewedPlansQueryFn [1] [7] [] (Except.ok (RespData.bare []))
          (Except.ok (RespData.bare [plan5R])) ∧
      reviewedPlansQueryFn [1] [7] [] (Except.ok (RespData.bare [plan5A]))
          (Except.ok (RespData.strBody "abc")) =
        reviewedPlansQueryFn [1] [7] [] (Except.ok (RespData.bare [plan5A]))
          (Except.ok (RespData.bare [])) ∧
      (reviewedPlansQueryFn [1] [7] [] (Except.ok RespData.other)
          (Except.ok (RespData.bare [plan5R]))).data = [] ∧
      (reviewedPlansQueryFn [1] [7] [] (Except.ok RespData.other)
          (Except.ok (RespData.bare [plan5R]))).errorsLogged ≠ [] ∧
      (reviewedPlansQueryFn [1] [7] [] (Except.ok (RespData.bare [plan5A]))
          (Except.ok RespData.other)).data = [] ∧
      (reviewedPlansQueryFn [1] [7] [] (Except.ok (RespData.bare [plan5A]))
          (Except.ok RespData.other)).errorsLogged ≠ []) :=
  ⟨⟨by decide, by decide⟩,
    envelope_tolerance [1] [7] [] "abc" [planSub9] [plan5A] [plan5R]
      (Except.ok (RespData.bare [plan5A])) (Except.ok (RespData.bare [plan5R]))
      (by decide) (by decide)⟩

/-- Claim C10: every entry of either builder output carries a fetched
record unchanged in every field; the pending-set entry adds only the
organizationName annotation and the decided-set entry adds only the
organizationName and currentEvaluatorReview annotations (the entry
types have no further fields). -/
theorem builder_entries_preserve_fetched_fields (userOrgIds currentEvaluatorIds : List Nat)
    (organizationsMap : List (Nat × String))
    (plansArr approvedList rejectedList : List Plan) :
    (∀ ap ∈ (pendingPlansQueryFn userOrgIds currentEvaluatorIds organizationsMap
        (Except.ok (RespData.bare plansArr))).data,
      ∃ p ∈ plansArr,
        ap.plan.id = p.id ∧ ap.plan.organization = p.organization ∧
        ap.plan.planner_name = p.planner_name ∧ ap.plan.status = p.status ∧
        ap.plan.submitted_at = p.submitted_at ∧ ap.plan.from_date = p.from_date ∧
        ap.plan.to_date = p.to_date ∧ ap.plan.organization_name = p.organization_name ∧
        ap.plan.reviews = p.reviews ∧
        ap.organizationName = orgNameOr organizationsMap p.organization) ∧
    (∀ rp ∈ (reviewedPlansQueryFn userOrgIds currentEvaluatorIds organizationsMap
        (Except.ok (RespData.bare approvedList))
        (Except.ok (RespData.bare rejectedList))).data,
      ∃ p ∈ approvedList ++ rejectedList,
        rp.plan.id = p.id ∧ rp.plan.organization = p.organization ∧
        rp.plan.planner_name = p.planner_name ∧ rp.plan.status = p.status ∧
        rp.plan.submitted_at = p.submitted_at ∧ rp.plan.from_date = p.from_date ∧
        rp.plan.to_date = p.to_date ∧ rp.plan.organization_name = p.organization_name ∧
        rp.plan.reviews = p.reviews ∧
        rp.organizationName = orgNameOr organizationsMap p.organization ∧
        (∃ reviews, p.reviews = some reviews ∧
          firstMatchingReview currentEvaluatorIds reviews = some rp.currentEvaluatorReview)) := by
  constructor
  · intro ap hap
    by_cases hg : (userOrgIds.length == 0 || currentEvaluatorIds.length == 0) = true
    · rw [pendingPlansQueryFn, if_pos hg] at hap
      simp at hap
    · have ho : userOrgIds ≠ [] := by
        intro h
        exact hg (by simp [h])
      have he : currentEvaluatorIds ≠ [] := by
        intro h
        exact hg (by simp [h])
      rw [pendingPlansQueryFn_ok_data userOrgIds currentEvaluatorIds organizationsMap
        plansArr ho he] at hap
      rcases List.mem_map.mp hap with ⟨p, hp, rfl⟩
      exact ⟨p, (List.mem_filter.mp hp).1,
        rfl, rfl, rfl, rfl, rfl, rfl, rfl, rfl, rfl, rfl⟩
  · intro rp hrp
    by_cases hg : (userOrgIds.length == 0 || currentEvaluatorIds.length == 0) = true
    · rw [reviewedPlansQueryFn, if_pos hg] at hrp
      simp at hrp
    · have ho : userOrgIds ≠ [] := by
        intro h
        exact hg (by simp [h])
      have he : currentEvaluatorIds ≠ [] := by
        intro h
        exact hg (by simp [h])
      rw [reviewedPlansQueryFn_ok_data userOrgIds currentEvaluatorIds organizationsMap
        approvedList rejectedList ho he] at hrp
      rcases dedup_foldl_first currentEvaluatorIds organizationsMap
        (approvedList ++ rejectedList) [] rp hrp with hmem | ⟨_, hfind, hshape, horg⟩
      · exact absurd hmem (List.not_mem_nil rp)
      · exact ⟨rp.plan, List.mem_of_find?_eq_some hfind,
          rfl, rfl, rfl, rfl, rfl, rfl, rfl, rfl, rfl, horg, hshape⟩

/-- Witness for claim C10: the preservation statement instantiated at
concrete builder inputs. -/
theorem builder_entries_preserve_fetched_fields_witness :
    (∀ ap ∈ (pendingPlansQueryFn [1] [7] []
        (Except.ok (RespData.bare [planSub9]))).data,
      ∃ p ∈ [planSub9],
        ap.plan.id = p.id ∧ ap.plan.organization = p.organization ∧
        ap.plan.planner_name = p.planner_name ∧ ap.plan.status = p.status ∧
        ap.plan.submitted_at = p.submitted_at ∧ ap.plan.from_date = p.from_date ∧
        ap.plan.to_date = p.to_date ∧ ap.plan.organization_name = p.organization_name ∧
        ap.plan.reviews = p.reviews ∧
        ap.organizationName = orgNameOr [] p.organization) ∧
    (∀ rp ∈ (reviewedPlansQueryFn [1] [7] []
        (Except.ok (RespData.bare [plan5A]))
        (Except.ok (RespData.bare [plan5R]))).data,
      ∃ p ∈ [plan5A] ++ [plan5R],
        rp.plan.id = p.id ∧ rp.plan.organization = p.organization ∧
        rp.plan.planner_name = p.planner_name ∧ rp.plan.status = p.status ∧
        rp.plan.submitted_at = p.submitted_at ∧ rp.plan.from_date = p.from_date ∧
        rp.plan.to_date = p.to_date ∧ rp.plan.organization_name = p.organization_name ∧
        rp.plan.reviews = p.reviews ∧
        rp.organizationName = orgNameOr [] p.organization ∧
        (∃ reviews, p.reviews = some reviews ∧
          firstMatchingReview [7] reviews = some rp.currentEvaluatorReview)) :=
  builder_entries_preserve_fetched_fields [1] [7] [] [planSub9] [plan5A] [plan5R]

end EvaluatorDashboard
